import Mathlib

/-!
Verification of the Umbra Protocol prover service (Go package `prover` plus the
gnark payment circuit and the standalone circom circuit).

The Go source is shallowly embedded: every map is an association list threaded
explicitly, wall-clock time is an explicit integer parameter, and the external
cryptographic library calls (gnark witness construction, Groth16 prove/verify,
EdDSA verification, JSON marshalling) are abstracted as an oracle record whose
results parameterize the request handler, exactly mirroring the call sites in
`generateProofHandler`.
-/

namespace Umbra

deriving instance DecidableEq for Except

/-- Lookup in a Go `map[string]V` modelled as an association list. -/
def alLookup {α : Type} (k : String) : List (String × α) → Option α
  | [] => none
  | (k', v) :: rest => if k' = k then some v else alLookup k rest

/-- Insert / overwrite in a Go `map[string]V` modelled as an association list. -/
def alInsert {α : Type} (k : String) (v : α) : List (String × α) → List (String × α)
  | [] => [(k, v)]
  | (k', v') :: rest => if k' = k then (k, v) :: rest else (k', v') :: alInsert k v rest

/-- Deletion from a Go `map[string]V` modelled as an association list. -/
def alErase {α : Type} (k : String) : List (String × α) → List (String × α)
  | [] => []
  | (k', v') :: rest => if k' = k then rest else (k', v') :: alErase k rest

theorem alLookup_alInsert_self {α : Type} (k : String) (v : α) (l : List (String × α)) :
    alLookup k (alInsert k v l) = some v := by
  induction l with
  | nil => simp [alInsert, alLookup]
  | cons hd tl ih =>
    by_cases h : hd.1 = k
    · simp [alInsert, alLookup, h]
    · simp only [alInsert, alLookup]
      rw [if_neg h, alLookup, if_neg h]
      exact ih

theorem mem_alInsert {α : Type} {k : String} {v : α} {l : List (String × α)}
    {kv : String × α} (h : kv ∈ alInsert k v l) : kv = (k, v) ∨ kv ∈ l := by
  induction l with
  | nil => simpa [alInsert] using h
  | cons hd tl ih =>
    by_cases hk : hd.1 = k
    · rw [alInsert, if_pos hk] at h
      rcases List.mem_cons.mp h with h1 | h1
      · exact Or.inl h1
      · exact Or.inr (List.mem_cons_of_mem _ h1)
    · rw [alInsert, if_neg hk] at h
      rcases List.mem_cons.mp h with h1 | h1
      · exact Or.inr (h1 ▸ List.mem_cons_self _ _)
      · rcases ih h1 with h2 | h2
        · exact Or.inl h2
        · exact Or.inr (List.mem_cons_of_mem _ h2)

theorem mem_alErase {α : Type} {k : String} {l : List (String × α)}
    {kv : String × α} (h : kv ∈ alErase k l) : kv ∈ l := by
  induction l with
  | nil => simp [alErase] at h
  | cons hd tl ih =>
    by_cases hk : hd.1 = k
    · rw [alErase, if_pos hk] at h
      exact List.mem_cons_of_mem _ h
    · rw [alErase, if_neg hk] at h
      rcases List.mem_cons.mp h with h1 | h1
      · exact h1 ▸ List.mem_cons_self _ _
      · exact List.mem_cons_of_mem _ (ih h1)

/--
Structure `ProofRequest` from `prover/go.mod` (`main.go` section): the JSON request body.
Numeric circuit values arrive as decimal strings; `CurrentTime` / `PaymentTime`
are `int64` seconds.  The extra `RecipientKey` field is the field that
`cache.go` (`generateCacheKey`) and the database layer read as `req.RecipientKey`;
the main file declares only `RecipientKeyX`/`RecipientKeyY`, so the Go sources
are mutually inconsistent and we carry both spellings on the one record.
-/
structure ProofRequest where
  MinAmount     : String
  RecipientKeyX : String
  RecipientKeyY : String
  MaxBlockAge   : String
  CurrentTime   : Int
  ActualAmount  : String
  SenderKeyX    : String
  SenderKeyY    : String
  PaymentTime   : Int
  SignatureR8X  : String
  SignatureR8Y  : String
  SignatureS    : String
  RecipientKey  : String
  deriving DecidableEq

/-- Structure `ProofResponse` from `main.go`: proof string, public-input vector, and
`generationTimeMs`. -/
structure ProofResponse where
  Proof          : String
  PublicInputs   : List String
  GenerationTime : Int
  deriving DecidableEq

/-- Function `isValidNumeric` from `main.go`: non-empty and every rune in `'0'..'9'`. -/
def isValidNumeric (s : String) : Bool :=
  if s = "" then false
  else s.toList.all fun c => '0' ≤ c && c ≤ '9'

/--
Function `validateProofRequest` from `main.go`, with the wall clock
(`time.Now().Unix()`) passed explicitly as `now`.  Checks appear in source
order and short-circuit on the first failure; `Except.error` carries the Go
error message.  Go indexes `req.MinAmount[0]`, reached only after the emptiness
check, which we render as `String.front`.
-/
def validateProofRequest (req : ProofRequest) (now : Int) : Except String Unit :=
  if req.MinAmount = "" then .error "minAmount is required"
  else if req.RecipientKeyX = "" then .error "recipientKeyX is required"
  else if req.RecipientKeyY = "" then .error "recipientKeyY is required"
  else if req.ActualAmount = "" then .error "actualAmount is required"
  else if req.SenderKeyX = "" then .error "senderKeyX is required"
  else if req.SenderKeyY = "" then .error "senderKeyY is required"
  else if req.SignatureR8X = "" then .error "signatureR8x is required"
  else if req.SignatureR8Y = "" then .error "signatureR8y is required"
  else if req.SignatureS = "" then .error "signatureS is required"
  else if req.MinAmount.length > 100 then .error "minAmount too long (max 100 chars)"
  else if req.RecipientKeyX.length > 100 then .error "recipientKeyX too long (max 100 chars)"
  else if req.RecipientKeyY.length > 100 then .error "recipientKeyY too long (max 100 chars)"
  else if !isValidNumeric req.MinAmount then .error "minAmount must be numeric"
  else if !isValidNumeric req.ActualAmount then .error "actualAmount must be numeric"
  else if !isValidNumeric req.MaxBlockAge then .error "maxBlockAge must be numeric"
  else if req.MinAmount = "0" ∨ req.MinAmount.front = '-' then .error "minAmount must be positive"
  else if req.ActualAmount = "0" ∨ req.ActualAmount.front = '-' then .error "actualAmount must be positive"
  else if req.CurrentTime < now - 300 ∨ req.CurrentTime > now + 60 then
    .error "currentTime must be within last 5 minutes"
  else if req.PaymentTime < now - 300 ∨ req.PaymentTime > now + 60 then
    .error "paymentTime must be within last 5 minutes"
  else if req.PaymentTime > req.CurrentTime then .error "paymentTime cannot be in the future"
  else .ok ()

/-- Decimal interpretation of a digit string, modelling `big.Int.SetString(s, 10)`
on an all-digit input. -/
def decToNat (s : String) : Nat :=
  s.toList.foldl (fun acc c => acc * 10 + (c.toNat - '0'.toNat)) 0

/--
Structure `CachedProof` from `cache.go`.  `cache.go` declares `PublicInputs string`
while `main.go`'s `ProofResponse` has `PublicInputs []string` (another
cross-file inconsistency); we use the `main.go` vector type, which is what the
handler actually stores and returns.  `GeneratedAt` is the wall-clock instant
of insertion. -/
structure CachedProof where
  Proof        : String
  PublicInputs : List String
  GeneratedAt  : Int
  AccessCount  : Nat
  deriving DecidableEq

/-- Structure `ProofCache` from `cache.go`: the `map[string]*CachedProof` as an
association list, plus `maxSize` and `ttl`. -/
structure ProofCache where
  entries : List (String × CachedProof)
  maxSize : Nat
  ttl     : Int
  deriving DecidableEq

/--
Function `generateCacheKey` from `cache.go`: the key is derived from
`req.MinAmount + req.RecipientKey + req.MaxBlockAge` only.  The Go code then
applies SHA-256 and hex-encodes; the hash is a deterministic function of this
concatenated string, so we model the key as the concatenation itself — equal
data strings give equal keys in both the model and the code, which is the only
direction any theorem below uses. -/
def generateCacheKey (req : ProofRequest) : String :=
  req.MinAmount ++ req.RecipientKey ++ req.MaxBlockAge

/--
Function `ProofCache.Get` from `cache.go`, with `time.Now()` passed as `now`: miss on
absent key, miss on expired entry (`now - GeneratedAt > ttl`), otherwise bump
`AccessCount` and return the cached proof with `GenerationTime = 0`. -/
def ProofCache.Get (pc : ProofCache) (req : ProofRequest) (now : Int) :
    Option ProofResponse × ProofCache :=
  match alLookup (generateCacheKey req) pc.entries with
  | none => (none, pc)
  | some cached =>
    if now - cached.GeneratedAt > pc.ttl then (none, pc)
    else
      (some { Proof := cached.Proof, PublicInputs := cached.PublicInputs,
              GenerationTime := 0 },
       { pc with entries := alInsert (generateCacheKey req) { cached with AccessCount := cached.AccessCount + 1 } pc.entries })

/-- The `oldestKey` scan of `ProofCache.evictLRU` from `cache.go`: fold over
the entries keeping the key with the oldest `GeneratedAt` strictly before the
initial `oldestTime = time.Now()`. -/
def ProofCache.oldestKey (pc : ProofCache) (now : Int) : String :=
  (pc.entries.foldl
    (fun (acc : String × Int) kv =>
      if kv.2.GeneratedAt < acc.2 then (kv.1, kv.2.GeneratedAt) else acc)
    ("", now)).1

/-- Function `ProofCache.evictLRU` from `cache.go`: delete the entry found by the
`oldestKey` scan, if any. -/
def ProofCache.evictLRU (pc : ProofCache) (now : Int) : ProofCache :=
  if pc.oldestKey now ≠ "" then
    { pc with entries := alErase (pc.oldestKey now) pc.entries }
  else pc

/-- Function `ProofCache.Set` from `cache.go`: evict when at capacity, then store the
response under the public-fields key with a fresh `GeneratedAt` and
`AccessCount = 1`. -/
def ProofCache.Set (pc : ProofCache) (req : ProofRequest) (resp : ProofResponse)
    (now : Int) : ProofCache :=
  if pc.entries.length ≥ pc.maxSize then
    { pc.evictLRU now with entries := alInsert (generateCacheKey req) ⟨resp.Proof, resp.PublicInputs, now, 1⟩ (pc.evictLRU now).entries }
  else
    { pc with entries := alInsert (generateCacheKey req) ⟨resp.Proof, resp.PublicInputs, now, 1⟩ pc.entries }

/-- Structure `TokenBucket` from the rate limiter (`ratelimiter.go` section of
`prover/README.md`).  All reachable Go values are non-negative, so the `int`
token count and monotonic timestamps are carried as `Nat`. -/
structure TokenBucket where
  tokens     : Nat
  lastRefill : Nat
  deriving DecidableEq

/-- Structure `RateLimiter` from the same file: per-IP bucket map plus configuration. -/
structure RateLimiter where
  buckets : List (String × TokenBucket)
  maxRate : Nat
  period  : Nat
  deriving DecidableEq

/-- Constructor `NewRateLimiter` from the same file (the cleanup goroutine is a separate
concern and not part of `Allow`). -/
def NewRateLimiter (maxRate : Nat) (period : Nat) : RateLimiter :=
  { buckets := [], maxRate := maxRate, period := period }

/--
Function `RateLimiter.Allow` from the rate-limiter source, with `time.Now()` passed as
`now`.  A missing bucket is created full; then
`tokensToAdd := int(elapsed / rl.period * time.Duration(rl.maxRate))` — Go
`Duration` division truncates, so this is `elapsed / period * maxRate` over
naturals — is added (capped at `maxRate`, `lastRefill` reset) whenever it is
positive; finally a token is consumed iff one is available. -/
def RateLimiter.Allow (rl : RateLimiter) (ip : String) (now : Nat) :
    Bool × RateLimiter :=
  let bucket :=
    match alLookup ip rl.buckets with
    | some b => b
    | none => { tokens := rl.maxRate, lastRefill := now }
  let elapsed := now - bucket.lastRefill
  let tokensToAdd := elapsed / rl.period * rl.maxRate
  let bucket :=
    if tokensToAdd > 0 then
      { tokens := min (bucket.tokens + tokensToAdd) rl.maxRate, lastRefill := now }
    else bucket
  if bucket.tokens > 0 then
    (true, { rl with buckets := alInsert ip { bucket with tokens := bucket.tokens - 1 } rl.buckets })
  else
    (false, { rl with buckets := alInsert ip bucket rl.buckets })

/-- Iterate `Allow` for one IP at one instant, collecting the verdicts. -/
def RateLimiter.allowTimes (rl : RateLimiter) (ip : String) (now : Nat) :
    Nat → List Bool × RateLimiter
  | 0 => ([], rl)
  | k + 1 =>
    let (b, rl') := rl.Allow ip now
    let (bs, rl'') := rl'.allowTimes ip now k
    (b :: bs, rl'')

/-- Order of the BN254 scalar field, the field the gnark circuit is compiled
over (`ecc.BN254.ScalarField()`). -/
def rBN254 : Nat :=
  21888242871839275222246405745257275088548364400416034343698204186575808495617

/-- Subtraction in the BN254 scalar field on canonical representatives,
modelling `api.Sub`. -/
def fieldSub (a b : Nat) : Nat :=
  (a % rBN254 + (rBN254 - b % rBN254)) % rBN254

/-- Signal assignment for `PaymentCircuit` from `main.go`, each signal a
canonical BN254 scalar-field representative. -/
structure PaymentAssignment where
  MinAmount     : Nat
  RecipientKeyX : Nat
  RecipientKeyY : Nat
  MaxBlockAge   : Nat
  CurrentTime   : Nat
  ActualAmount  : Nat
  SenderKeyX    : Nat
  SenderKeyY    : Nat
  PaymentTime   : Nat
  SignatureR8X  : Nat
  SignatureR8Y  : Nat
  SignatureS    : Nat

/-- The `timeDiff` signal of `PaymentCircuit.Define`
(`api.Sub(circuit.CurrentTime, circuit.PaymentTime)`). -/
def PaymentAssignment.timeDiff (a : PaymentAssignment) : Nat :=
  fieldSub a.CurrentTime a.PaymentTime

/-- The recency constraint of `PaymentCircuit.Define`, `main.go` lines 97-99:
`api.AssertIsLessOrEqual(timeDiff, circuit.MaxBlockAge)` — a NON-strict
comparison of canonical representatives. -/
def gnarkRecencyConstraint (a : PaymentAssignment) : Prop :=
  a.timeDiff ≤ a.MaxBlockAge

instance (a : PaymentAssignment) : Decidable (gnarkRecencyConstraint a) := by
  unfold gnarkRecencyConstraint; infer_instance

/-- The amount constraint of `PaymentCircuit.Define`:
`api.AssertIsLessOrEqual(circuit.MinAmount, circuit.ActualAmount)`. -/
def gnarkAmountConstraint (a : PaymentAssignment) : Prop :=
  a.MinAmount % rBN254 ≤ a.ActualAmount % rBN254

/-- Template `LessThan(n)` from circomlib `comparators.circom`, as instantiated by the
standalone circuit: `out = 1 - bit n of (in0 + 2^n - in1)`; for inputs below
`2^n` the output is `1` exactly when `in0 < in1` (strict). -/
def circomLessThanOut (n x y : Nat) : Nat :=
  1 - (x + 2 ^ n - y) % rBN254 / 2 ^ n % 2

/-- The recency check of `payment_proof_optimized.circom` lines 46-53:
`timeCheck = LessThan(64)` applied to `(currentTime - paymentTime, maxBlockAge)`
with the constraint `timeCheck.out === 1`. -/
def circomRecencyConstraint (timeDiff maxBlockAge : Nat) : Prop :=
  circomLessThanOut 64 timeDiff maxBlockAge = 1

/-- Minimal big-endian byte expansion with explicit fuel (one byte consumed
per step); `64` bytes of fuel cover every value below `2^512`. -/
def beBytesFuel : Nat → Nat → List Nat
  | 0, _ => []
  | fuel + 1, n => if n = 0 then [] else beBytesFuel fuel (n / 256) ++ [n % 256]

/-- Model of `big.Int.Bytes()`: the minimal big-endian byte encoding (empty for zero).
Every value in this development is far below `2^512`, so the fuel is exact. -/
def beBytes (n : Nat) : List Nat :=
  beBytesFuel 64 n

/-- The canonical 32-byte big-endian encoding of a BN254 scalar-field element,
the block format `hash.MIMC_BN254`'s digest consumes per field element. -/
def beBytes32 (n : Nat) : List Nat :=
  List.replicate (32 - (beBytes n).length) 0 ++ beBytes n

/--
The byte stream `preVerifySignature` (`main.go` lines 495-511) feeds its MiMC
digest: `hFunc.Write(x.Bytes())` for actualAmount, senderX, senderY,
recipientX, recipientY, paymentTime — each contributing its MINIMAL big-endian
encoding, with no padding to the 32-byte field-element block size. -/
def preVerifyMessageBytes (amount sx sy rx ry pt : Nat) : List Nat :=
  beBytes amount ++ beBytes sx ++ beBytes sy ++ beBytes rx ++ beBytes ry ++ beBytes pt

/--
The byte stream equivalent to what `PaymentCircuit.Define` (`main.go` lines
101-112) hashes: `mimc.Write` of the six signals consumes each one as a full
scalar-field element, i.e. one 32-byte big-endian block per value.  The two
MiMC computations agree exactly when the two byte streams agree. -/
def circuitMessageBytes (amount sx sy rx ry pt : Nat) : List Nat :=
  beBytes32 (amount % rBN254) ++ beBytes32 (sx % rBN254) ++ beBytes32 (sy % rBN254) ++
    beBytes32 (rx % rBN254) ++ beBytes32 (ry % rBN254) ++ beBytes32 (pt % rBN254)

/--
Outcomes of the external cryptographic library calls made by
`generateProofHandler`, one field per call site, over abstract types `W`
(witness), `P` (Groth16 proof) and `PW` (public witness):
`preVerifySig` is `preVerifySignature(&req) == nil`; `newWitness` is
`frontend.NewWitness`; `prove` is `groth16.Prove`; `publicPart` is
`witness.Public()`; `verify` is `groth16.Verify(proof, vk, publicWitness) == nil`;
`marshal` is `json.Marshal(proof)`. -/
structure CryptoOracle (W P PW : Type) where
  preVerifySig : ProofRequest → Bool
  newWitness   : ProofRequest → Option W
  prove        : W → Option P
  publicPart   : W → Option PW
  verify       : P → PW → Bool
  marshal      : P → Option String

/-- Outcome of one request, mirroring the `c.JSON` calls of
`generateProofHandler`: HTTP 400 with an error message, HTTP 500 with an error
message, or HTTP 200 with a `ProofResponse`. -/
inductive HandlerResult where
  | badRequest (msg : String)
  | internalError (msg : String)
  | ok (resp : ProofResponse)
  deriving DecidableEq

/-- Which pipeline stages a request actually executed. -/
structure HandlerTrace where
  ranSigVerify : Bool
  ranWitness   : Bool
  ranProve     : Bool
  ranVerify    : Bool
  deriving DecidableEq

/-- The public-input vector `generateProofHandler` builds for the response
(`main.go` lines 461-468): the request's own public strings plus
`fmt.Sprintf("%d", req.CurrentTime)`. -/
def handlerPublicInputs (req : ProofRequest) : List String :=
  [req.MinAmount, req.RecipientKeyX, req.RecipientKeyY, req.MaxBlockAge,
    toString req.CurrentTime]

/--
Function `generateProofHandler` from `main.go` after a successful `BindJSON`, with the
wall clock passed as `now` and the measured generation time as `genMs`.
Pipeline in source order: validation (400 on failure), cache lookup (200 with
the cached response on a hit), signature pre-verification (400 on failure),
witness construction, proving, public-witness extraction, sanity verification,
serialization (500 on any failure), then cache store and 200.  Returns the
response, the cache after the request, and the executed-stage trace. -/
def generateProofHandler {W P PW : Type} (o : CryptoOracle W P PW)
    (cache : ProofCache) (req : ProofRequest) (now : Int) (genMs : Int) :
    HandlerResult × ProofCache × HandlerTrace :=
  match validateProofRequest req now with
  | .error e => (.badRequest e, cache, ⟨false, false, false, false⟩)
  | .ok _ =>
    match cache.Get req now with
    | (some cachedResp, cache') => (.ok cachedResp, cache', ⟨false, false, false, false⟩)
    | (none, cache') =>
      if o.preVerifySig req then
        match o.newWitness req with
        | none => (.internalError "witness creation failed", cache', ⟨true, true, false, false⟩)
        | some w =>
          match o.prove w with
          | none => (.internalError "proof generation failed", cache', ⟨true, true, true, false⟩)
          | some pf =>
            match o.publicPart w with
            | none =>
              (.internalError "public witness extraction failed", cache',
               ⟨true, true, true, false⟩)
            | some pw =>
              if o.verify pf pw then
                match o.marshal pf with
                | none =>
                  (.internalError "proof serialization failed", cache',
                   ⟨true, true, true, true⟩)
                | some proofStr =>
                  let resp : ProofResponse :=
                    { Proof := proofStr, PublicInputs := handlerPublicInputs req,
                      GenerationTime := genMs }
                  (.ok resp, cache'.Set req resp now, ⟨true, true, true, true⟩)
              else
                (.internalError "generated proof is invalid", cache',
                 ⟨true, true, true, true⟩)
      else
        (.badRequest "Invalid signature", cache', ⟨true, false, false, false⟩)

/-- A request with every field well-formed; used to instantiate the theorems
below at concrete inputs.  At wall clock `1700000000` it passes
`validateProofRequest`. -/
def baseReq : ProofRequest :=
  { MinAmount := "1000000", RecipientKeyX := "11", RecipientKeyY := "12",
    MaxBlockAge := "60", CurrentTime := 1700000000,
    ActualAmount := "1500000", SenderKeyX := "13", SenderKeyY := "14",
    PaymentTime := 1699999950, SignatureR8X := "15", SignatureR8Y := "16",
    SignatureS := "17", RecipientKey := "1112" }

/-- The cache as constructed by `main()`: `NewProofCache(1000, time.Hour)`. -/
def emptyCache : ProofCache :=
  { entries := [], maxSize := 1000, ttl := 3600 }

theorem alLookup_mem {α : Type} {k : String} {v : α} {l : List (String × α)}
    (h : alLookup k l = some v) : (k, v) ∈ l := by
  induction l with
  | nil => simp [alLookup] at h
  | cons hd tl ih =>
    by_cases hk : hd.1 = k
    · rw [alLookup, if_pos hk] at h
      obtain ⟨k', v'⟩ := hd
      cases h
      cases hk
      exact List.mem_cons_self _ _
    · rw [alLookup, if_neg hk] at h
      exact List.mem_cons_of_mem _ (ih h)

/-- Both miss paths of `ProofCache.Get` leave the cache untouched. -/
theorem ProofCache.Get_miss {pc : ProofCache} {req : ProofRequest} {now : Int}
    (h : (pc.Get req now).1 = none) : pc.Get req now = (none, pc) := by
  unfold ProofCache.Get at h ⊢
  rcases hl : alLookup (generateCacheKey req) pc.entries with _ | cached
  · simp
  · by_cases hexp : now - cached.GeneratedAt > pc.ttl
    · simp [hexp]
    · simp [hl, hexp] at h

/-- Lemma: `ProofCache.Set` always leaves the new response retrievable under the
request's cache key, with the insertion instant and `AccessCount = 1`. -/
theorem ProofCache.lookup_Set (pc : ProofCache) (req : ProofRequest)
    (resp : ProofResponse) (now : Int) :
    alLookup (generateCacheKey req) (pc.Set req resp now).entries =
      some { Proof := resp.Proof, PublicInputs := resp.PublicInputs,
             GeneratedAt := now, AccessCount := 1 } := by
  unfold ProofCache.Set
  by_cases hcap : pc.entries.length ≥ pc.maxSize
  · rw [if_pos hcap]
    exact alLookup_alInsert_self _ _ _
  · rw [if_neg hcap]
    exact alLookup_alInsert_self _ _ _

theorem ProofCache.evictLRU_ttl (pc : ProofCache) (now : Int) :
    (pc.evictLRU now).ttl = pc.ttl := by
  unfold ProofCache.evictLRU
  split
  · rfl
  · rfl

theorem ProofCache.Set_ttl (pc : ProofCache) (req : ProofRequest)
    (resp : ProofResponse) (now : Int) : (pc.Set req resp now).ttl = pc.ttl := by
  unfold ProofCache.Set
  by_cases hcap : pc.entries.length ≥ pc.maxSize
  · rw [if_pos hcap]
    exact pc.evictLRU_ttl now
  · rw [if_neg hcap]

/-- Eviction only removes entries. -/
theorem mem_evictLRU {pc : ProofCache} {now : Int} {kv : String × CachedProof}
    (h : kv ∈ (pc.evictLRU now).entries) : kv ∈ pc.entries := by
  unfold ProofCache.evictLRU at h
  by_cases h0 : pc.oldestKey now ≠ ""
  · rw [if_pos h0] at h
    exact mem_alErase h
  · rwa [if_neg h0] at h

/-- Every entry after a `Set` is the freshly stored one or came from the
original cache. -/
theorem mem_Set {pc : ProofCache} {req : ProofRequest} {resp : ProofResponse}
    {now : Int} {kv : String × CachedProof}
    (h : kv ∈ (pc.Set req resp now).entries) :
    kv = (generateCacheKey req, ⟨resp.Proof, resp.PublicInputs, now, 1⟩) ∨
      kv ∈ pc.entries := by
  unfold ProofCache.Set at h
  by_cases hcap : pc.entries.length ≥ pc.maxSize
  · rw [if_pos hcap] at h
    rcases mem_alInsert h with h1 | h1
    · exact Or.inl h1
    · exact Or.inr (mem_evictLRU h1)
  · rw [if_neg hcap] at h
    rcases mem_alInsert h with h1 | h1
    · exact Or.inl h1
    · exact Or.inr h1

/-- When every upstream step succeeds, `generateProofHandler` returns the
freshly built response, stores it in the cache, and reports a full trace. -/
theorem generateProofHandler_success {W P PW : Type} (o : CryptoOracle W P PW)
    (cache : ProofCache) (req : ProofRequest) (now genMs : Int)
    {w : W} {pf : P} {pw : PW} {s : String}
    (hval : validateProofRequest req now = .ok ())
    (hmiss : (cache.Get req now).1 = none)
    (hsig : o.preVerifySig req = true)
    (hwit : o.newWitness req = some w)
    (hprove : o.prove w = some pf)
    (hpub : o.publicPart w = some pw)
    (hverify : o.verify pf pw = true)
    (hmarshal : o.marshal pf = some s) :
    generateProofHandler o cache req now genMs =
      (.ok { Proof := s, PublicInputs := handlerPublicInputs req,
             GenerationTime := genMs },
       cache.Set req
         { Proof := s, PublicInputs := handlerPublicInputs req,
           GenerationTime := genMs } now,
       ⟨true, true, true, true⟩) := by
  have hget := ProofCache.Get_miss hmiss
  simp only [generateProofHandler, hval, hget, hsig, hwit, hprove, hpub, hverify,
    hmarshal, if_true]

/-- A fresh (validated, unexpired) cache hit short-circuits the pipeline:
the cached response is returned as-is and no later stage runs. -/
theorem generateProofHandler_hit {W P PW : Type} (o : CryptoOracle W P PW)
    (cache : ProofCache) (req : ProofRequest) (now genMs : Int)
    {resp : ProofResponse}
    (hval : validateProofRequest req now = .ok ())
    (hhit : (cache.Get req now).1 = some resp) :
    generateProofHandler o cache req now genMs =
      (.ok resp, (cache.Get req now).2, ⟨false, false, false, false⟩) := by
  rcases hget : cache.Get req now with ⟨og, c2⟩
  rw [hget] at hhit
  simp only at hhit
  subst hhit
  simp only [generateProofHandler, hval, hget]

/-- A proof string produced by a successful witness/prove/extract cycle whose
proof passed `groth16.Verify` under oracle `o`, as serialized by `marshal`. -/
def VerifiedProofString {W P PW : Type} (o : CryptoOracle W P PW) (s : String) : Prop :=
  ∃ req w pf pw, o.newWitness req = some w ∧ o.prove w = some pf ∧
    o.publicPart w = some pw ∧ o.verify pf pw = true ∧ o.marshal pf = some s

/-- Invariant: every cache entry holds a sanity-verified proof. -/
def CacheVerified {W P PW : Type} (o : CryptoOracle W P PW) (pc : ProofCache) : Prop :=
  ∀ kv ∈ pc.entries, VerifiedProofString o kv.2.Proof

/-- Lemma: `ProofCache.Get` preserves the verified-entries invariant (it only bumps
an access counter). -/
theorem CacheVerified_Get {W P PW : Type} (o : CryptoOracle W P PW)
    {pc : ProofCache} (hinv : CacheVerified o pc) (req : ProofRequest)
    (now : Int) : CacheVerified o (pc.Get req now).2 := by
  unfold ProofCache.Get
  rcases hl : alLookup (generateCacheKey req) pc.entries with _ | cached
  · exact hinv
  · dsimp only
    by_cases hexp : now - cached.GeneratedAt > pc.ttl
    · rw [if_pos hexp]
      exact hinv
    · rw [if_neg hexp]
      intro kv hkv
      rcases mem_alInsert hkv with h1 | h1
      · rw [h1]
        have hv := hinv (generateCacheKey req, cached) (alLookup_mem hl)
        exact hv
      · exact hinv _ h1

/-- Lemma: `ProofCache.Set` preserves the verified-entries invariant when the stored
response itself carries a verified proof. -/
theorem CacheVerified_Set {W P PW : Type} (o : CryptoOracle W P PW)
    {pc : ProofCache} {req : ProofRequest} {resp : ProofResponse} {now : Int}
    (hinv : CacheVerified o pc) (hresp : VerifiedProofString o resp.Proof) :
    CacheVerified o (pc.Set req resp now) := by
  intro kv hkv
  rcases mem_Set hkv with h1 | h1
  · rw [h1]
    exact hresp
  · exact hinv _ h1

/-- C2: freshly generated proofs are always re-verified before being returned
or cached.  Assuming every existing cache entry is verified: (1) any success
response produced by actually running the prover carries a proof that passed
`groth16.Verify` on the public witness used to build it; (2) the cache after
the request still contains only verified proofs; (3) if the fresh proof fails
verification the response is the internal error "generated proof is invalid",
which carries no proof. -/
theorem fresh_proofs_always_verified {W P PW : Type} (o : CryptoOracle W P PW)
    (cache : ProofCache) (req : ProofRequest) (now genMs : Int)
    (hinv : CacheVerified o cache) :
    (∀ resp, (generateProofHandler o cache req now genMs).1 = .ok resp →
      (generateProofHandler o cache req now genMs).2.2.ranProve = true →
      VerifiedProofString o resp.Proof) ∧
    CacheVerified o (generateProofHandler o cache req now genMs).2.1 ∧
    (∀ w pf pw, validateProofRequest req now = .ok () →
      (cache.Get req now).1 = none → o.preVerifySig req = true →
      o.newWitness req = some w → o.prove w = some pf →
      o.publicPart w = some pw → o.verify pf pw = false →
      (generateProofHandler o cache req now genMs).1 =
        .internalError "generated proof is invalid") := by
  rcases hval : validateProofRequest req now with e | u
  · have heq : generateProofHandler o cache req now genMs =
        (.badRequest e, cache, ⟨false, false, false, false⟩) := by
      simp only [generateProofHandler, hval]
    rw [heq]
    refine ⟨?_, hinv, ?_⟩
    · intro resp hr
      exact HandlerResult.noConfusion hr
    · intro w pf pw hval0
      exact Except.noConfusion hval0
  · rcases u
    rcases hget : cache.Get req now with ⟨og, c2⟩
    have hc2inv : CacheVerified o c2 := by
      have hgi := CacheVerified_Get o hinv req now
      rwa [hget] at hgi
    rcases og with _ | cresp
    · -- cache miss
      have hmiss : (cache.Get req now).1 = none := by rw [hget]
      have hm := ProofCache.Get_miss hmiss
      rw [hget] at hm
      have hc2 : cache = c2 := (congrArg Prod.snd hm).symm
      subst hc2
      by_cases hsig : o.preVerifySig req = true
      · rcases hwit : o.newWitness req with _ | w
        · have heq : generateProofHandler o cache req now genMs =
              (.internalError "witness creation failed", cache,
               ⟨true, true, false, false⟩) := by
            simp only [generateProofHandler, hval, hget, hsig, hwit, if_true]
          rw [heq]
          refine ⟨?_, hc2inv, ?_⟩
          · intro resp hr
            exact HandlerResult.noConfusion hr
          · intro w0 pf0 pw0 _ _ _ hwit0
            exact Option.noConfusion hwit0
        · rcases hprove : o.prove w with _ | pf
          · have heq : generateProofHandler o cache req now genMs =
                (.internalError "proof generation failed", cache,
                 ⟨true, true, true, false⟩) := by
              simp only [generateProofHandler, hval, hget, hsig, hwit, hprove,
                if_true]
            rw [heq]
            refine ⟨?_, hc2inv, ?_⟩
            · intro resp hr
              exact HandlerResult.noConfusion hr
            · intro w0 pf0 pw0 _ _ _ hwit0 hprove0
              cases hwit0
              rw [hprove] at hprove0
              exact Option.noConfusion hprove0
          · rcases hpub : o.publicPart w with _ | pw
            · have heq : generateProofHandler o cache req now genMs =
                  (.internalError "public witness extraction failed", cache,
                   ⟨true, true, true, false⟩) := by
                simp only [generateProofHandler, hval, hget, hsig, hwit, hprove,
                  hpub, if_true]
              rw [heq]
              refine ⟨?_, hc2inv, ?_⟩
              · intro resp hr
                exact HandlerResult.noConfusion hr
              · intro w0 pf0 pw0 _ _ _ hwit0 hprove0 hpub0
                cases hwit0
                rw [hprove] at hprove0
                cases hprove0
                rw [hpub] at hpub0
                exact Option.noConfusion hpub0
            · by_cases hver : o.verify pf pw = true
              · rcases hmar : o.marshal pf with _ | s
                · have heq : generateProofHandler o cache req now genMs =
                      (.internalError "proof serialization failed", cache,
                       ⟨true, true, true, true⟩) := by
                    simp only [generateProofHandler, hval, hget, hsig, hwit,
                      hprove, hpub, hver, hmar, if_true]
                  rw [heq]
                  refine ⟨?_, hc2inv, ?_⟩
                  · intro resp hr
                    exact HandlerResult.noConfusion hr
                  · intro w0 pf0 pw0 _ _ _ hwit0 hprove0 hpub0 hver0
                    cases hwit0
                    rw [hprove] at hprove0
                    cases hprove0
                    rw [hpub] at hpub0
                    cases hpub0
                    rw [hver] at hver0
                    exact Bool.noConfusion hver0
                · have heq := generateProofHandler_success o cache req now genMs
                    hval hmiss hsig hwit hprove hpub hver hmar
                  rw [heq]
                  have hvs : VerifiedProofString o s :=
                    ⟨req, w, pf, pw, hwit, hprove, hpub, hver, hmar⟩
                  refine ⟨?_, ?_, ?_⟩
                  · intro resp hr _
                    cases hr
                    exact hvs
                  · exact CacheVerified_Set o hinv hvs
                  · intro w0 pf0 pw0 _ _ _ hwit0 hprove0 hpub0 hver0
                    cases hwit0
                    rw [hprove] at hprove0
                    cases hprove0
                    rw [hpub] at hpub0
                    cases hpub0
                    rw [hver] at hver0
                    exact Bool.noConfusion hver0
              · have hver' : o.verify pf pw = false := by simpa using hver
                have heq : generateProofHandler o cache req now genMs =
                    (.internalError "generated proof is invalid", cache,
                     ⟨true, true, true, true⟩) := by
                  simp only [generateProofHandler, hval, hget, hsig, hwit,
                    hprove, hpub, hver', if_true, Bool.false_eq_true, if_false]
                rw [heq]
                refine ⟨?_, hc2inv, ?_⟩
                · intro resp hr
                  exact HandlerResult.noConfusion hr
                · intro w0 pf0 pw0 _ _ _ _ _ _ _
                  rfl
      · have hsig' : o.preVerifySig req = false := by simpa using hsig
        have heq : generateProofHandler o cache req now genMs =
            (.badRequest "Invalid signature", cache,
             ⟨true, false, false, false⟩) := by
          simp only [generateProofHandler, hval, hget, hsig',
            Bool.false_eq_true, if_false]
        rw [heq]
        refine ⟨?_, hc2inv, ?_⟩
        · intro resp hr
          exact HandlerResult.noConfusion hr
        · intro w0 pf0 pw0 _ _ hsig0
          rw [hsig'] at hsig0
          exact Bool.noConfusion hsig0
    · -- cache hit
      have heq : generateProofHandler o cache req now genMs =
          (.ok cresp, c2, ⟨false, false, false, false⟩) := by
        simp only [generateProofHandler, hval, hget]
      rw [heq]
      refine ⟨?_, hc2inv, ?_⟩
      · intro resp _ htr
        exact Bool.noConfusion htr
      · intro w0 pf0 pw0 _ hmiss0
        exact Option.noConfusion hmiss0

/-- An oracle whose every cryptographic step succeeds. -/
def successOracle : CryptoOracle Nat Nat Nat :=
  { preVerifySig := fun _ => true, newWitness := fun _ => some 0,
    prove := fun _ => some 0, publicPart := fun _ => some 0,
    verify := fun _ _ => true, marshal := fun _ => some "proof" }

/-- C2 witness: the theorem instantiated with a concrete oracle whose steps
all succeed, the empty cache and the baseline request. -/
theorem fresh_proofs_always_verified_witness :
    CacheVerified successOracle emptyCache ∧
    ((∀ resp,
        (generateProofHandler successOracle emptyCache baseReq 1700000000 50).1 =
          .ok resp →
        (generateProofHandler successOracle emptyCache baseReq
            1700000000 50).2.2.ranProve = true →
        VerifiedProofString successOracle resp.Proof) ∧
      CacheVerified successOracle
        (generateProofHandler successOracle emptyCache baseReq 1700000000 50).2.1 ∧
      (∀ w pf pw, validateProofRequest baseReq 1700000000 = .ok () →
        (emptyCache.Get baseReq 1700000000).1 = none →
        successOracle.preVerifySig baseReq = true →
        successOracle.newWitness baseReq = some w →
        successOracle.prove w = some pf → successOracle.publicPart w = some pw →
        successOracle.verify pf pw = false →
        (generateProofHandler successOracle emptyCache baseReq 1700000000 50).1 =
          .internalError "generated proof is invalid")) :=
  ⟨fun kv hkv => absurd hkv (by simp [emptyCache]),
   fresh_proofs_always_verified successOracle emptyCache baseReq 1700000000 50
     (fun kv hkv => absurd hkv (by simp [emptyCache]))⟩

/-- Full two-request cache scenario: the first request generates, verifies
and stores a proof; a second request with the same cache key arriving within
the TTL is answered from the cache with `GenerationTime = 0` and an all-false
stage trace. -/
theorem handler_second_from_cache {W P PW : Type} (o : CryptoOracle W P PW)
    (cache : ProofCache) (r1 r2 : ProofRequest) (now1 now2 genMs1 genMs2 : Int)
    {w : W} {pf : P} {pw : PW} {s : String}
    (hkey : generateCacheKey r1 = generateCacheKey r2)
    (hval1 : validateProofRequest r1 now1 = .ok ())
    (hmiss : (cache.Get r1 now1).1 = none)
    (hsig : o.preVerifySig r1 = true)
    (hwit : o.newWitness r1 = some w)
    (hprove : o.prove w = some pf)
    (hpub : o.publicPart w = some pw)
    (hverify : o.verify pf pw = true)
    (hmarshal : o.marshal pf = some s)
    (hval2 : validateProofRequest r2 now2 = .ok ())
    (hfresh : ¬ now2 - now1 > cache.ttl) :
    (generateProofHandler o cache r1 now1 genMs1).1 =
      .ok { Proof := s, PublicInputs := handlerPublicInputs r1,
            GenerationTime := genMs1 } ∧
    (generateProofHandler o cache r1 now1 genMs1).2.1 =
      cache.Set r1
        { Proof := s, PublicInputs := handlerPublicInputs r1,
          GenerationTime := genMs1 } now1 ∧
    (generateProofHandler o
        ((generateProofHandler o cache r1 now1 genMs1).2.1) r2 now2 genMs2).1 =
      .ok { Proof := s, PublicInputs := handlerPublicInputs r1,
            GenerationTime := 0 } ∧
    (generateProofHandler o
        ((generateProofHandler o cache r1 now1 genMs1).2.1) r2 now2 genMs2).2.2 =
      ⟨false, false, false, false⟩ := by
  have heq1 := generateProofHandler_success o cache r1 now1 genMs1
    hval1 hmiss hsig hwit hprove hpub hverify hmarshal
  rw [heq1]
  refine ⟨rfl, rfl, ?_⟩
  set resp1 : ProofResponse :=
    { Proof := s, PublicInputs := handlerPublicInputs r1,
      GenerationTime := genMs1 } with hresp1
  have hlk : alLookup (generateCacheKey r2) (cache.Set r1 resp1 now1).entries =
      some { Proof := s, PublicInputs := handlerPublicInputs r1,
             GeneratedAt := now1, AccessCount := 1 } := by
    rw [← hkey]
    exact ProofCache.lookup_Set cache r1 resp1 now1
  have hcond : ¬ now2 - now1 > (cache.Set r1 resp1 now1).ttl := by
    rw [ProofCache.Set_ttl]
    exact hfresh
  have hhit : ((cache.Set r1 resp1 now1).Get r2 now2).1 =
      some { Proof := s, PublicInputs := handlerPublicInputs r1,
             GenerationTime := 0 } := by
    unfold ProofCache.Get
    rw [hlk]
    dsimp only
    rw [if_neg hcond]
  have heq2 := generateProofHandler_hit o (cache.Set r1 resp1 now1) r2 now2
    genMs2 hval2 hhit
  rw [heq2]
  exact ⟨rfl, rfl⟩

/-- C5: cache idempotence.  Two requests agreeing on the public key fields
(`minAmount`, `recipientKey`, `maxBlockAge`) — their private fields entirely
unconstrained — are both answered with a proof of the public claim when the
second arrives within the TTL: the first response carries the freshly proved
and verified proof, the second is served from the cache with
`generationTimeMs = 0`, and the second request runs no proving, witness or
signature work at all. -/
theorem cache_idempotence {W P PW : Type} (o : CryptoOracle W P PW)
    (cache : ProofCache) (r1 r2 : ProofRequest) (now1 now2 genMs1 genMs2 : Int)
    {w : W} {pf : P} {pw : PW} {s : String}
    (hkey1 : r1.MinAmount = r2.MinAmount)
    (hkey2 : r1.RecipientKey = r2.RecipientKey)
    (hkey3 : r1.MaxBlockAge = r2.MaxBlockAge)
    (hval1 : validateProofRequest r1 now1 = .ok ())
    (hmiss : (cache.Get r1 now1).1 = none)
    (hsig : o.preVerifySig r1 = true)
    (hwit : o.newWitness r1 = some w)
    (hprove : o.prove w = some pf)
    (hpub : o.publicPart w = some pw)
    (hverify : o.verify pf pw = true)
    (hmarshal : o.marshal pf = some s)
    (hval2 : validateProofRequest r2 now2 = .ok ())
    (hfresh : ¬ now2 - now1 > cache.ttl) :
    (generateProofHandler o cache r1 now1 genMs1).1 =
      .ok { Proof := s, PublicInputs := handlerPublicInputs r1,
            GenerationTime := genMs1 } ∧
    (generateProofHandler o
        ((generateProofHandler o cache r1 now1 genMs1).2.1) r2 now2 genMs2).1 =
      .ok { Proof := s, PublicInputs := handlerPublicInputs r1,
            GenerationTime := 0 } ∧
    (generateProofHandler o
        ((generateProofHandler o cache r1 now1 genMs1).2.1) r2 now2 genMs2).2.2.ranProve
      = false ∧
    (generateProofHandler o
        ((generateProofHandler o cache r1 now1 genMs1).2.1) r2 now2 genMs2).2.2.ranWitness
      = false := by
  have hkey : generateCacheKey r1 = generateCacheKey r2 := by
    unfold generateCacheKey
    rw [hkey1, hkey2, hkey3]
  obtain ⟨h1, _, h2, h3⟩ := handler_second_from_cache o cache r1 r2 now1 now2
    genMs1 genMs2 hkey hval1 hmiss hsig hwit hprove hpub hverify hmarshal
    hval2 hfresh
  refine ⟨h1, h2, ?_, ?_⟩
  · rw [h3]
  · rw [h3]

/-- A second request agreeing with `baseReq` on the cache-key fields but with
different private fields (and a different `currentTime`). -/
def otherPrivateReq : ProofRequest :=
  { baseReq with ActualAmount := "1600000", SenderKeyX := "23",
                 SenderKeyY := "24", PaymentTime := 1699999960,
                 SignatureR8X := "25", SignatureR8Y := "26",
                 SignatureS := "27", CurrentTime := 1700000005 }

/-- C5 witness: the idempotence theorem instantiated at the baseline request,
a second request with different private fields, the success oracle and the
empty cache. -/
theorem cache_idempotence_witness :
    baseReq.MinAmount = otherPrivateReq.MinAmount ∧
    ((generateProofHandler successOracle emptyCache baseReq 1700000000 50).1 =
        .ok { Proof := "proof", PublicInputs := handlerPublicInputs baseReq,
              GenerationTime := 50 } ∧
      (generateProofHandler successOracle
          ((generateProofHandler successOracle emptyCache baseReq
              1700000000 50).2.1) otherPrivateReq 1700000005 70).1 =
        .ok { Proof := "proof", PublicInputs := handlerPublicInputs baseReq,
              GenerationTime := 0 } ∧
      (generateProofHandler successOracle
          ((generateProofHandler successOracle emptyCache baseReq
              1700000000 50).2.1) otherPrivateReq 1700000005 70).2.2.ranProve
        = false ∧
      (generateProofHandler successOracle
          ((generateProofHandler successOracle emptyCache baseReq
              1700000000 50).2.1) otherPrivateReq 1700000005 70).2.2.ranWitness
        = false) :=
  ⟨by decide,
   @cache_idempotence Nat Nat Nat successOracle emptyCache baseReq
     otherPrivateReq 1700000000 1700000005 50 70 0 0 0 "proof" (by decide)
     (by decide) (by decide) (by decide) (by decide) (by decide) rfl rfl rfl
     rfl rfl (by decide) (by decide)⟩

/-- C8 (amended): once validation has passed, a fresh cache hit
short-circuits the pipeline: the cached response is returned with success
status and neither `preVerifySignature` nor witness construction nor proving
runs — the signature values, valid or not, are never examined.  (Validation,
however, runs BEFORE the cache lookup, so empty signature fields are still
rejected with a 400; see the counterexample.) -/
theorem cache_hit_skips_signature_check {W P PW : Type} (o : CryptoOracle W P PW)
    (cache : ProofCache) (req : ProofRequest) (now genMs : Int)
    {resp : ProofResponse}
    (hval : validateProofRequest req now = .ok ())
    (hhit : (cache.Get req now).1 = some resp) :
    (generateProofHandler o cache req now genMs).1 = .ok resp ∧
    (generateProofHandler o cache req now genMs).2.2.ranSigVerify = false ∧
    (generateProofHandler o cache req now genMs).2.2.ranWitness = false ∧
    (generateProofHandler o cache req now genMs).2.2.ranProve = false := by
  have heq := generateProofHandler_hit o cache req now genMs hval hhit
  rw [heq]
  exact ⟨rfl, rfl, rfl, rfl⟩

/-- Request `baseReq` with an empty signature scalar. -/
def emptySigReq : ProofRequest :=
  { baseReq with SignatureS := "" }

/-- A cache holding one fresh entry stored under `emptySigReq`'s public
cache key. -/
def cacheWithEntry : ProofCache :=
  { entries := [(generateCacheKey emptySigReq,
      ⟨"cachedproof", ["1000000"], 1700000000, 1⟩)],
    maxSize := 1000, ttl := 3600 }

/-- C8 counterexample: a request whose public key fields match an unexpired
cache entry but whose `signatureS` is empty does NOT receive a success
response — validation rejects it with 400 "signatureS is required" before the
cache is consulted. -/
theorem empty_signature_rejected_despite_cache_hit :
    (alLookup (generateCacheKey emptySigReq) cacheWithEntry.entries).isSome =
      true ∧
    (generateProofHandler successOracle cacheWithEntry emptySigReq
        1700000000 50).1 = .badRequest "signatureS is required" := by
  decide

/-- C8 witness: the amended theorem instantiated at a request with non-empty
but arbitrary (never-checked) signature values hitting the prepared cache. -/
theorem cache_hit_skips_signature_check_witness :
    validateProofRequest baseReq 1700000000 = .ok () ∧
    ((generateProofHandler successOracle cacheWithEntry baseReq 1700000000 50).1 =
        .ok { Proof := "cachedproof", PublicInputs := ["1000000"],
              GenerationTime := 0 } ∧
      (generateProofHandler successOracle cacheWithEntry baseReq
          1700000000 50).2.2.ranSigVerify = false ∧
      (generateProofHandler successOracle cacheWithEntry baseReq
          1700000000 50).2.2.ranWitness = false ∧
      (generateProofHandler successOracle cacheWithEntry baseReq
          1700000000 50).2.2.ranProve = false) :=
  ⟨by decide,
   @cache_hit_skips_signature_check Nat Nat Nat successOracle cacheWithEntry
     baseReq 1700000000 50
     { Proof := "cachedproof", PublicInputs := ["1000000"], GenerationTime := 0 }
     (by decide) (by decide)⟩

/-- C9: `generateCacheKey` hashes only `minAmount`, `recipientKey` and
`maxBlockAge`; `currentTime` — a public circuit input — is ignored.  Two
requests agreeing on those three fields but differing in `currentTime` share
one cache key, and the second is served the cached response whose
`publicInputs` vector carries the FIRST request's `currentTime` (at index 4),
not its own. -/
theorem cache_key_ignores_currentTime {W P PW : Type} (o : CryptoOracle W P PW)
    (cache : ProofCache) (r1 r2 : ProofRequest) (now1 now2 genMs1 genMs2 : Int)
    {w : W} {pf : P} {pw : PW} {s : String}
    (hkey1 : r1.MinAmount = r2.MinAmount)
    (hkey2 : r1.RecipientKey = r2.RecipientKey)
    (hkey3 : r1.MaxBlockAge = r2.MaxBlockAge)
    (_hct : r1.CurrentTime ≠ r2.CurrentTime)
    (hval1 : validateProofRequest r1 now1 = .ok ())
    (hmiss : (cache.Get r1 now1).1 = none)
    (hsig : o.preVerifySig r1 = true)
    (hwit : o.newWitness r1 = some w)
    (hprove : o.prove w = some pf)
    (hpub : o.publicPart w = some pw)
    (hverify : o.verify pf pw = true)
    (hmarshal : o.marshal pf = some s)
    (hval2 : validateProofRequest r2 now2 = .ok ())
    (hfresh : ¬ now2 - now1 > cache.ttl) :
    generateCacheKey r1 = generateCacheKey r2 ∧
    (generateProofHandler o
        ((generateProofHandler o cache r1 now1 genMs1).2.1) r2 now2 genMs2).1 =
      .ok { Proof := s, PublicInputs := handlerPublicInputs r1,
            GenerationTime := 0 } ∧
    (handlerPublicInputs r1).getD 4 "" = toString r1.CurrentTime := by
  have hkey : generateCacheKey r1 = generateCacheKey r2 := by
    unfold generateCacheKey
    rw [hkey1, hkey2, hkey3]
  obtain ⟨_, _, h2, _⟩ := handler_second_from_cache o cache r1 r2 now1 now2
    genMs1 genMs2 hkey hval1 hmiss hsig hwit hprove hpub hverify hmarshal
    hval2 hfresh
  exact ⟨hkey, h2, rfl⟩

/-- C9 witness: the theorem instantiated at two concrete requests differing
only in `currentTime` (and private fields). -/
theorem cache_key_ignores_currentTime_witness :
    baseReq.CurrentTime ≠ otherPrivateReq.CurrentTime ∧
    (generateCacheKey baseReq = generateCacheKey otherPrivateReq ∧
      (generateProofHandler successOracle
          ((generateProofHandler successOracle emptyCache baseReq
              1700000000 50).2.1) otherPrivateReq 1700000005 70).1 =
        .ok { Proof := "proof", PublicInputs := handlerPublicInputs baseReq,
              GenerationTime := 0 } ∧
      (handlerPublicInputs baseReq).getD 4 "" = toString baseReq.CurrentTime) :=
  ⟨by decide,
   @cache_key_ignores_currentTime Nat Nat Nat successOracle emptyCache baseReq
     otherPrivateReq 1700000000 1700000005 50 70 0 0 0 "proof" (by decide)
     (by decide) (by decide) (by decide) (by decide) (by decide) (by decide)
     rfl rfl rfl rfl rfl (by decide) (by decide)⟩

/-- Behaviour of `Allow` for an existing bucket with tokens left, called with no elapsed
time: refill adds nothing and one token is consumed. -/
theorem RateLimiter.Allow_same_time_pos (rl : RateLimiter) (ip : String)
    (t c : Nat) (hb : alLookup ip rl.buckets = some ⟨c + 1, t⟩) :
    rl.Allow ip t =
      (true, { rl with buckets := alInsert ip ⟨c, t⟩ rl.buckets }) := by
  simp [RateLimiter.Allow, hb, Nat.sub_self]

/-- Behaviour of `Allow` for an exhausted bucket with no elapsed time: denied, bucket
written back unchanged. -/
theorem RateLimiter.Allow_exhausted (rl : RateLimiter) (ip : String)
    (t : Nat) (hb : alLookup ip rl.buckets = some ⟨0, t⟩) :
    rl.Allow ip t =
      (false, { rl with buckets := alInsert ip ⟨0, t⟩ rl.buckets }) := by
  simp [RateLimiter.Allow, hb, Nat.sub_self]

/-- Behaviour of `Allow` for an unknown identity: the bucket is created full and one token
is consumed immediately. -/
theorem RateLimiter.Allow_fresh (rl : RateLimiter) (ip : String) (now : Nat)
    (hb : alLookup ip rl.buckets = none) (hmax : 0 < rl.maxRate) :
    rl.Allow ip now =
      (true, { rl with buckets := alInsert ip ⟨rl.maxRate - 1, now⟩ rl.buckets }) := by
  simp [RateLimiter.Allow, hb, Nat.sub_self, hmax]

/-- Behaviour of `Allow` for an exhausted bucket after exactly one refill period: the lazy
refill restores `maxRate` tokens (capped) and the request is admitted. -/
theorem RateLimiter.Allow_after_period (rl : RateLimiter) (ip : String)
    (t : Nat) (hb : alLookup ip rl.buckets = some ⟨0, t⟩)
    (hper : 0 < rl.period) (hmax : 0 < rl.maxRate) :
    (rl.Allow ip (t + rl.period)).1 = true := by
  simp only [RateLimiter.Allow, hb, Nat.add_sub_cancel_left, Nat.div_self hper,
    Nat.one_mul, Nat.zero_add]
  rw [if_pos hmax]
  have hmin : min rl.maxRate rl.maxRate = rl.maxRate := Nat.min_self _
  simp only [hmin]
  rw [if_pos hmax]

/-- Unfolding `allowTimes` one step. -/
theorem RateLimiter.allowTimes_succ (rl : RateLimiter) (ip : String)
    (now k : Nat) :
    rl.allowTimes ip now (k + 1) =
      ((rl.Allow ip now).1 :: ((rl.Allow ip now).2.allowTimes ip now k).1,
       ((rl.Allow ip now).2.allowTimes ip now k).2) := rfl

/-- Draining run: starting from a bucket holding `c ≥ k` tokens at the call
instant, `k` consecutive `Allow` calls with no elapsed time all succeed and
leave `c - k` tokens; configuration fields are untouched. -/
theorem allowTimes_run (ip : String) (t : Nat) :
    ∀ (k : Nat) (rl : RateLimiter) (c : Nat), k ≤ c →
      alLookup ip rl.buckets = some ⟨c, t⟩ →
      (rl.allowTimes ip t k).1 = List.replicate k true ∧
      (rl.allowTimes ip t k).2.maxRate = rl.maxRate ∧
      (rl.allowTimes ip t k).2.period = rl.period ∧
      alLookup ip (rl.allowTimes ip t k).2.buckets = some ⟨c - k, t⟩ := by
  intro k
  induction k with
  | zero =>
    intro rl c _ hb
    exact ⟨rfl, rfl, rfl, by simpa using hb⟩
  | succ k ih =>
    intro rl c hk hb
    obtain ⟨c', rfl⟩ : ∃ c', c = c' + 1 := ⟨c - 1, by omega⟩
    have hstep := RateLimiter.Allow_same_time_pos rl ip t c' hb
    have hlk' : alLookup ip
        ({ rl with buckets := alInsert ip ⟨c', t⟩ rl.buckets }).buckets =
        some ⟨c', t⟩ := alLookup_alInsert_self ip ⟨c', t⟩ rl.buckets
    have hih := ih { rl with buckets := alInsert ip ⟨c', t⟩ rl.buckets } c'
      (by omega) hlk'
    obtain ⟨hbs, hmaxf, hperf, hlkf⟩ := hih
    rw [RateLimiter.allowTimes_succ, hstep]
    refine ⟨?_, hmaxf, hperf, ?_⟩
    · dsimp only
      rw [hbs, List.replicate_succ]
    · dsimp only
      rw [hlkf]
      have hcc : c' - k = c' + 1 - (k + 1) := by omega
      rw [hcc]

/-- C6: token-bucket behaviour of the rate limiter.  For a fresh client
identity on a limiter configured with capacity `N` and period `P`, the bucket
starts full: the first `N` `Allow` calls at one instant all return `true`,
the `(N+1)`-th returns `false`, and after one full refill period has elapsed
a further call returns `true` again. -/
theorem rate_limiter_token_bucket (N P t : Nat) (ip : String)
    (hN : 0 < N) (hP : 0 < P) :
    ((NewRateLimiter N P).allowTimes ip t N).1 = List.replicate N true ∧
    (((NewRateLimiter N P).allowTimes ip t N).2.Allow ip t).1 = false ∧
    ((((NewRateLimiter N P).allowTimes ip t N).2.Allow ip t).2.Allow ip
        (t + P)).1 = true := by
  obtain ⟨M, rfl⟩ : ∃ M, N = M + 1 := ⟨N - 1, by omega⟩
  have hfresh : alLookup ip (NewRateLimiter (M + 1) P).buckets = none := rfl
  have h1 := RateLimiter.Allow_fresh (NewRateLimiter (M + 1) P) ip t hfresh hN
  have hlk1 : alLookup ip
      (((NewRateLimiter (M + 1) P).Allow ip t).2).buckets = some ⟨M, t⟩ := by
    rw [h1]
    exact alLookup_alInsert_self ip _ _
  obtain ⟨hbs, hmaxf, hperf, hlkf⟩ := allowTimes_run ip t M
    (((NewRateLimiter (M + 1) P).Allow ip t).2) M le_rfl hlk1
  rw [Nat.sub_self] at hlkf
  have h1a : ((NewRateLimiter (M + 1) P).Allow ip t).1 = true := by
    rw [h1]
  have hmax2 : (((NewRateLimiter (M + 1) P).Allow ip t).2).maxRate = M + 1 := by
    rw [h1]
    rfl
  have hper2 : (((NewRateLimiter (M + 1) P).Allow ip t).2).period = P := by
    rw [h1]
    rfl
  rw [hmax2] at hmaxf
  rw [hper2] at hperf
  have hsucc := RateLimiter.allowTimes_succ (NewRateLimiter (M + 1) P) ip t M
  refine ⟨?_, ?_, ?_⟩
  · rw [hsucc]
    dsimp only
    rw [h1a, hbs, List.replicate_succ]
  · rw [hsucc]
    dsimp only
    have hex := RateLimiter.Allow_exhausted
      ((((NewRateLimiter (M + 1) P).Allow ip t).2).allowTimes ip t M).2 ip t hlkf
    rw [hex]
  · rw [hsucc]
    dsimp only
    have hex := RateLimiter.Allow_exhausted
      ((((NewRateLimiter (M + 1) P).Allow ip t).2).allowTimes ip t M).2 ip t hlkf
    rw [hex]
    dsimp only
    have hlk3 : alLookup ip
        ({ ((((NewRateLimiter (M + 1) P).Allow ip t).2).allowTimes ip t M).2 with
            buckets := alInsert ip ⟨0, t⟩
              (((((NewRateLimiter (M + 1) P).Allow ip t).2).allowTimes ip
                t M).2).buckets }).buckets = some ⟨0, t⟩ :=
      alLookup_alInsert_self ip _ _
    have hper3 : ({ ((((NewRateLimiter (M + 1) P).Allow ip t).2).allowTimes ip t M).2 with
        buckets := alInsert ip ⟨0, t⟩
          (((((NewRateLimiter (M + 1) P).Allow ip t).2).allowTimes ip
            t M).2).buckets } : RateLimiter).period = P := hperf
    have hmax3 : ({ ((((NewRateLimiter (M + 1) P).Allow ip t).2).allowTimes ip t M).2 with
        buckets := alInsert ip ⟨0, t⟩
          (((((NewRateLimiter (M + 1) P).Allow ip t).2).allowTimes ip
            t M).2).buckets } : RateLimiter).maxRate = M + 1 := hmaxf
    have happ := RateLimiter.Allow_after_period
      ({ ((((NewRateLimiter (M + 1) P).Allow ip t).2).allowTimes ip t M).2 with
          buckets := alInsert ip ⟨0, t⟩
            (((((NewRateLimiter (M + 1) P).Allow ip t).2).allowTimes ip
              t M).2).buckets }) ip t hlk3 (by rw [hper3]; exact hP)
      (by rw [hmax3]; exact Nat.succ_pos M)
    rw [hper3] at happ
    exact happ

/-- C6 witness: the token-bucket theorem at the production configuration
`NewRateLimiter(10, time.Minute)` (period in seconds). -/
theorem rate_limiter_token_bucket_witness :
    (0 : Nat) < 10 ∧
    (((NewRateLimiter 10 60).allowTimes "203.0.113.7" 1000 10).1 =
        List.replicate 10 true ∧
      (((NewRateLimiter 10 60).allowTimes "203.0.113.7" 1000 10).2.Allow
          "203.0.113.7" 1000).1 = false ∧
      ((((NewRateLimiter 10 60).allowTimes "203.0.113.7" 1000 10).2.Allow
          "203.0.113.7" 1000).2.Allow "203.0.113.7" (1000 + 60)).1 = true) :=
  ⟨by decide,
   rate_limiter_token_bucket 10 60 1000 "203.0.113.7" (by decide) (by decide)⟩

/-- A signal assignment sitting exactly on the recency boundary:
`currentTime - paymentTime = maxBlockAge = 60`. -/
def boundaryAssignment : PaymentAssignment :=
  { MinAmount := 1000000, RecipientKeyX := 11, RecipientKeyY := 12,
    MaxBlockAge := 60, CurrentTime := 1700000000,
    ActualAmount := 1500000, SenderKeyX := 13, SenderKeyY := 14,
    PaymentTime := 1699999940, SignatureR8X := 15, SignatureR8Y := 16,
    SignatureS := 17 }

/-- C1 counterexample: at the boundary assignment the difference
`currentTime - paymentTime` equals `maxBlockAge`, and the recency constraint
the prover's gnark circuit actually enforces (`AssertIsLessOrEqual`) is
SATISFIED — the request is not rejected, contradicting the claimed strict
`currentTime - paymentTime < maxBlockAge` behaviour. -/
theorem recency_boundary_accepted :
    boundaryAssignment.timeDiff = boundaryAssignment.MaxBlockAge ∧
    gnarkRecencyConstraint boundaryAssignment ∧
    ¬ boundaryAssignment.timeDiff < boundaryAssignment.MaxBlockAge := by
  decide

/-- C1 (amended): for assignments without field wraparound, the recency
constraint of the gnark `PaymentCircuit` used by the prover service holds
exactly when `currentTime - paymentTime ≤ maxBlockAge` (non-strict, boundary
accepted, only strictly larger differences rejected); the strict comparison
`currentTime - paymentTime < maxBlockAge` is enforced only by the standalone
circom circuit's `LessThan(64)` check. -/
theorem gnark_recency_nonstrict_circom_strict (a : PaymentAssignment)
    (hP : a.PaymentTime ≤ a.CurrentTime) (hC : a.CurrentTime < rBN254) :
    (gnarkRecencyConstraint a ↔
      a.CurrentTime - a.PaymentTime ≤ a.MaxBlockAge) ∧
    (∀ d m : Nat, d < 2 ^ 64 → m < 2 ^ 64 →
      (circomRecencyConstraint d m ↔ d < m)) := by
  constructor
  · have hPr : a.PaymentTime < rBN254 := lt_of_le_of_lt hP hC
    unfold gnarkRecencyConstraint PaymentAssignment.timeDiff fieldSub
    rw [Nat.mod_eq_of_lt hC, Nat.mod_eq_of_lt hPr]
    have h3 : a.CurrentTime + (rBN254 - a.PaymentTime)
        = rBN254 + (a.CurrentTime - a.PaymentTime) := by omega
    rw [h3, Nat.add_mod_left, Nat.mod_eq_of_lt (by omega)]
  · intro d m hd hm
    unfold circomRecencyConstraint circomLessThanOut
    have hr : (2 : Nat) ^ 64 + 2 ^ 64 < rBN254 := by decide
    have hlt : d + 2 ^ 64 - m < rBN254 := by omega
    rw [Nat.mod_eq_of_lt hlt]
    omega

/-- C1 witness: the amended theorem instantiated at the boundary
assignment. -/
theorem gnark_recency_nonstrict_circom_strict_witness :
    boundaryAssignment.PaymentTime ≤ boundaryAssignment.CurrentTime ∧
    ((gnarkRecencyConstraint boundaryAssignment ↔
        boundaryAssignment.CurrentTime - boundaryAssignment.PaymentTime ≤
          boundaryAssignment.MaxBlockAge) ∧
      (∀ d m : Nat, d < 2 ^ 64 → m < 2 ^ 64 →
        (circomRecencyConstraint d m ↔ d < m))) :=
  ⟨by decide,
   gnark_recency_nonstrict_circom_strict boundaryAssignment (by decide) (by decide)⟩

/-- C3 counterexample: a request whose `senderKeyX` is not a digit string and
whose `actualAmount` is 101 characters long still passes
`validateProofRequest` — the digits-only and length checks are not applied to
every numeric field. -/
theorem validation_accepts_non_digit_sender_key :
    validateProofRequest
        { baseReq with SenderKeyX := "deadbeef!",
                       ActualAmount := String.mk (List.replicate 101 '1') }
        1700000000 = .ok () ∧
    isValidNumeric "deadbeef!" = false ∧
    (String.mk (List.replicate 101 '1')).length > 100 := by
  decide

/-- C3 (amended): what `validateProofRequest` actually guarantees on success:
`minAmount`, `actualAmount`, `maxBlockAge` are non-empty digit strings;
`minAmount`, `recipientKeyX`, `recipientKeyY` are at most 100 characters;
the remaining string fields are merely non-empty — no digits-only or length
check applies to `senderKeyX`, `senderKeyY` or the signature components, and
no length check to `actualAmount` or `maxBlockAge`. -/
theorem validateProofRequest_ok_guarantees (req : ProofRequest) (now : Int)
    (h : validateProofRequest req now = .ok ()) :
    isValidNumeric req.MinAmount = true ∧ isValidNumeric req.ActualAmount = true ∧
    isValidNumeric req.MaxBlockAge = true ∧ req.MinAmount.length ≤ 100 ∧
    req.RecipientKeyX.length ≤ 100 ∧ req.RecipientKeyY.length ≤ 100 ∧
    req.SenderKeyX ≠ "" ∧ req.SenderKeyY ≠ "" ∧ req.SignatureR8X ≠ "" ∧
    req.SignatureR8Y ≠ "" ∧ req.SignatureS ≠ "" := by
  unfold validateProofRequest at h
  by_cases h1 : req.MinAmount = ""
  · rw [if_pos h1] at h; exact Except.noConfusion h
  rw [if_neg h1] at h
  by_cases h2 : req.RecipientKeyX = ""
  · rw [if_pos h2] at h; exact Except.noConfusion h
  rw [if_neg h2] at h
  by_cases h3 : req.RecipientKeyY = ""
  · rw [if_pos h3] at h; exact Except.noConfusion h
  rw [if_neg h3] at h
  by_cases h4 : req.ActualAmount = ""
  · rw [if_pos h4] at h; exact Except.noConfusion h
  rw [if_neg h4] at h
  by_cases h5 : req.SenderKeyX = ""
  · rw [if_pos h5] at h; exact Except.noConfusion h
  rw [if_neg h5] at h
  by_cases h6 : req.SenderKeyY = ""
  · rw [if_pos h6] at h; exact Except.noConfusion h
  rw [if_neg h6] at h
  by_cases h7 : req.SignatureR8X = ""
  · rw [if_pos h7] at h; exact Except.noConfusion h
  rw [if_neg h7] at h
  by_cases h8 : req.SignatureR8Y = ""
  · rw [if_pos h8] at h; exact Except.noConfusion h
  rw [if_neg h8] at h
  by_cases h9 : req.SignatureS = ""
  · rw [if_pos h9] at h; exact Except.noConfusion h
  rw [if_neg h9] at h
  by_cases h10 : req.MinAmount.length > 100
  · rw [if_pos h10] at h; exact Except.noConfusion h
  rw [if_neg h10] at h
  by_cases h11 : req.RecipientKeyX.length > 100
  · rw [if_pos h11] at h; exact Except.noConfusion h
  rw [if_neg h11] at h
  by_cases h12 : req.RecipientKeyY.length > 100
  · rw [if_pos h12] at h; exact Except.noConfusion h
  rw [if_neg h12] at h
  by_cases h13 : (!isValidNumeric req.MinAmount) = true
  · rw [if_pos h13] at h; exact Except.noConfusion h
  by_cases h14 : (!isValidNumeric req.ActualAmount) = true
  · rw [if_neg h13, if_pos h14] at h; exact Except.noConfusion h
  by_cases h15 : (!isValidNumeric req.MaxBlockAge) = true
  · rw [if_neg h13, if_neg h14, if_pos h15] at h; exact Except.noConfusion h
  exact ⟨by simpa using h13, by simpa using h14, by simpa using h15,
    by omega, by omega, by omega, h5, h6, h7, h8, h9⟩

/-- C3 witness: the amended theorem instantiated at the baseline request. -/
theorem validateProofRequest_ok_guarantees_witness :
    validateProofRequest baseReq 1700000000 = .ok () ∧
    (isValidNumeric baseReq.MinAmount = true ∧
      isValidNumeric baseReq.ActualAmount = true ∧
      isValidNumeric baseReq.MaxBlockAge = true ∧ baseReq.MinAmount.length ≤ 100 ∧
      baseReq.RecipientKeyX.length ≤ 100 ∧ baseReq.RecipientKeyY.length ≤ 100 ∧
      baseReq.SenderKeyX ≠ "" ∧ baseReq.SenderKeyY ≠ "" ∧
      baseReq.SignatureR8X ≠ "" ∧ baseReq.SignatureR8Y ≠ "" ∧
      baseReq.SignatureS ≠ "") :=
  ⟨by decide, validateProofRequest_ok_guarantees baseReq 1700000000 (by decide)⟩

/-- Oracle whose witness construction fails; the later stages are never
reached. -/
def witnessFailOracle : CryptoOracle Nat Nat Nat :=
  { preVerifySig := fun _ => true, newWitness := fun _ => none,
    prove := fun _ => some 0, publicPart := fun _ => some 0,
    verify := fun _ _ => true, marshal := fun _ => some "p" }

/-- C4 counterexample: when witness construction fails on a validated,
signature-pre-verified request, the handler answers with the 500-class
`internalError "witness creation failed"` — not with the claimed 400-class
generic message "invalid payment proof inputs". -/
theorem witness_failure_is_500 :
    (generateProofHandler witnessFailOracle emptyCache baseReq 1700000000 50).1 =
      .internalError "witness creation failed" ∧
    (generateProofHandler witnessFailOracle emptyCache baseReq 1700000000 50).1 ≠
      .badRequest "invalid payment proof inputs" := by
  decide

/-- C4 (amended): whenever witness construction fails after validation,
a cache miss and successful signature pre-verification, the response is the
internal (500-class) error "witness creation failed". -/
theorem witness_failure_internal_error {W P PW : Type} (o : CryptoOracle W P PW)
    (cache : ProofCache) (req : ProofRequest) (now genMs : Int)
    (hval : validateProofRequest req now = .ok ())
    (hmiss : (cache.Get req now).1 = none)
    (hsig : o.preVerifySig req = true)
    (hwit : o.newWitness req = none) :
    (generateProofHandler o cache req now genMs).1 =
      .internalError "witness creation failed" := by
  have hget := ProofCache.Get_miss hmiss
  simp only [generateProofHandler, hval, hget, hsig, hwit, if_true]

/-- C4 witness: the amended theorem instantiated at the concrete failing
oracle and request. -/
theorem witness_failure_internal_error_witness :
    validateProofRequest baseReq 1700000000 = .ok () ∧
    (generateProofHandler witnessFailOracle emptyCache baseReq 1700000000 50).1 =
      .internalError "witness creation failed" :=
  ⟨by decide,
   witness_failure_internal_error witnessFailOracle emptyCache baseReq
     1700000000 50 (by decide) (by decide) rfl rfl⟩

set_option maxRecDepth 40000 in
/-- C7 (code bug, evaluated at the failing input): for the validated request
`baseReq`, the byte stream `preVerifySignature` feeds its MiMC digest — the
minimal big-endian `big.Int.Bytes()` encodings, 11 bytes in total for these
values — differs from the stream of full 32-byte field-element blocks the
in-circuit MiMC consumes (192 bytes), so the two message-hash computations
cannot operate on the same input. -/
theorem preverify_hash_stream_mismatch :
    validateProofRequest baseReq 1700000000 = .ok () ∧
    preVerifyMessageBytes (decToNat baseReq.ActualAmount)
        (decToNat baseReq.SenderKeyX) (decToNat baseReq.SenderKeyY)
        (decToNat baseReq.RecipientKeyX) (decToNat baseReq.RecipientKeyY)
        baseReq.PaymentTime.toNat ≠
      circuitMessageBytes (decToNat baseReq.ActualAmount)
        (decToNat baseReq.SenderKeyX) (decToNat baseReq.SenderKeyY)
        (decToNat baseReq.RecipientKeyX) (decToNat baseReq.RecipientKeyY)
        baseReq.PaymentTime.toNat ∧
    (circuitMessageBytes (decToNat baseReq.ActualAmount)
        (decToNat baseReq.SenderKeyX) (decToNat baseReq.SenderKeyY)
        (decToNat baseReq.RecipientKeyX) (decToNat baseReq.RecipientKeyY)
        baseReq.PaymentTime.toNat).length = 192 := by
  decide

/-- C10: the amount positivity check in `validateProofRequest` is purely
textual — it rejects only the literal string "0" or a leading minus — so the
request with `actualAmount = "00"`, whose represented integer value is zero,
passes validation in full. -/
theorem amount_positivity_check_textual :
    validateProofRequest { baseReq with ActualAmount := "00" } 1700000000 =
      .ok () ∧
    decToNat "00" = 0 := by
  decide

end Umbra
